import Mathlib

/-!
Verification of the hermeto dependency-resolution core against its
natural-language specification.

The pip artifact data model is embedded from
`hermeto/core/package_managers/pip/models.py`.  The cargo resolver
(`hermeto/core/package_managers/cargo/main.py`) is exercised only through its
unit tests in this repository snapshot, so its behaviour is modelled from the
specification (each such definition carries a doc comment starting
`Modelled from the spec:`).
-/

namespace Hermeto

/-! ## Pip artifact model (`pip/models.py`) -/

/-- Common fields shared by every artifact, from the dataclass
`CommonArtifact`: package name, local storage path, requirement-file
identifier, missing-checksum flag and build-dependency flag.
Filesystem paths are embedded as strings. -/
structure CommonArtifact where
  package : String
  path : String
  requirement_file : String
  missing_req_file_checksum : Bool
  build_dependency : Bool
deriving DecidableEq, Repr

/-- Distribution kind of a PyPI package, from the
`Literal["sdist", "wheel"]` annotation on `PyPIArtifact.package_type`. -/
inductive PackageType where
  | sdist
  | wheel
deriving DecidableEq, Repr

/-- `PyPIArtifact`: an index artifact with index URL, distribution kind and a
stored version string, extending the common fields. -/
structure PyPIArtifact extends CommonArtifact where
  index_url : String
  package_type : PackageType
  version : String
deriving DecidableEq, Repr

/-- `VCSArtifact`: repository URL, host, namespace, repository name and
resolved reference, extending the common fields. -/
structure VCSArtifact extends CommonArtifact where
  url : String
  host : String
  namespace' : String
  repo : String
  ref : String
deriving DecidableEq, Repr

/-- `URLArtifact`: the original URL and the URL with a hash fragment
appended, extending the common fields. -/
structure URLArtifact extends CommonArtifact where
  original_url : String
  url_with_hash : String
deriving DecidableEq, Repr

/-- A runtime artifact instance.  In the Python source an instance is either
exactly a `CommonArtifact` (the base dataclass is concrete and constructible)
or exactly one of the three subclasses; the embedding makes that a sum with
one constructor per runtime class. -/
inductive Artifact where
  | common (a : CommonArtifact)
  | pypi (a : PyPIArtifact)
  | vcs (a : VCSArtifact)
  | url (a : URLArtifact)
deriving DecidableEq, Repr

/-- The `CommonArtifact.kind` property: an `isinstance` chain over the three
subclasses returning the discriminant string, and `raise ValueError` on any
other instance.  The raise is embedded as `Except.error`. -/
def Artifact.kind : Artifact → Except String String
  | .pypi _ => .ok "pypi"
  | .url _ => .ok "url"
  | .vcs _ => .ok "vcs"
  | .common _ => .error "Unknown artifact type"

/-- `VCSArtifact.version`: the f-string `f"git+{self.url}@{self.ref}"`. -/
def VCSArtifact.version (a : VCSArtifact) : String :=
  "git+" ++ a.url ++ "@" ++ a.ref

/-- `URLArtifact.version`: returns `url_with_hash`. -/
def URLArtifact.version (a : URLArtifact) : String :=
  a.url_with_hash

/-- An instance of the `ArtifactDownload` union: one of the three origin
variants (not the bare base class). -/
def Artifact.isDownload : Artifact → Bool
  | .common _ => false
  | _ => true

/-- Whether the instance is the `PyPIArtifact` variant. -/
def Artifact.isPyPI : Artifact → Bool
  | .pypi _ => true
  | _ => false

/-- Whether the instance is the `VCSArtifact` variant. -/
def Artifact.isVCS : Artifact → Bool
  | .vcs _ => true
  | _ => false

/-- Whether the instance is the `URLArtifact` variant. -/
def Artifact.isURL : Artifact → Bool
  | .url _ => true
  | _ => false

/-! ## Cargo resolver error kinds -/

/-- Modelled from the spec: the error kinds of §7 that the cargo resolver can
surface — `UnexpectedFormat` for grammar failures, `NotAGitRepo` for absent
version control, and a catch-all for other propagated failures. -/
inductive CargoError where
  | unexpectedFormat
  | notAGitRepo
  | other (msg : String)
deriving DecidableEq, Repr

/-! ## Cargo config sanitizer -/

/-- Modelled from the spec: cargo configuration text, embedded at the
granularity of tokenised lines.  A line is a `[registries.NAME]` header, any
other `[SECTION]` header (including a bare `[registries]` header with no
registry name), a `key = "value"` assignment, a blank line, or a `junk` line
that fails to tokenise (the malformed-input case). -/
inductive ConfigLine where
  | registryHeader (name : String)
  | otherHeader (name : String)
  | kv (key : String) (value : String)
  | blank
  | junk (raw : String)
deriving DecidableEq, Repr

/-- Modelled from the spec: a parsed cargo configuration document — the
registry sections (registry name with its field list) and every other
top-level section. -/
structure CargoConfig where
  registries : List (String × List (String × String))
  otherSections : List (String × List (String × String))
deriving DecidableEq, Repr

/-- Collect the `key = value` assignments belonging to the current section:
consume `kv` lines, skip blank lines, and stop at the next header or junk
line, returning the collected fields and the remaining lines. -/
def takeKVs : List ConfigLine → List (String × String) × List ConfigLine
  | [] => ([], [])
  | .kv k v :: rest =>
      let r := takeKVs rest
      ((k, v) :: r.1, r.2)
  | .blank :: rest => takeKVs rest
  | .registryHeader n :: rest => ([], .registryHeader n :: rest)
  | .otherHeader n :: rest => ([], .otherHeader n :: rest)
  | .junk r :: rest => ([], .junk r :: rest)

theorem takeKVs_rest_length (ls : List ConfigLine) :
    (takeKVs ls).2.length ≤ ls.length := by
  induction ls with
  | nil => simp [takeKVs]
  | cons head tail ih =>
    cases head with
    | kv k v => simpa [takeKVs] using Nat.le_succ_of_le ih
    | blank => simpa [takeKVs] using Nat.le_succ_of_le ih
    | registryHeader n => simp [takeKVs]
    | otherHeader n => simp [takeKVs]
    | junk r => simp [takeKVs]

/-- Modelled from the spec: parse tokenised configuration lines into a
`CargoConfig` document.  A junk line anywhere makes the whole input
malformed (`none`); a `key = value` outside any section is kept as an
anonymous top-level section. -/
def parseConfig : List ConfigLine → Option CargoConfig
  | [] => some ⟨[], []⟩
  | .blank :: rest => parseConfig rest
  | .junk _ :: _ => none
  | .kv k v :: rest =>
      (parseConfig rest).map (fun doc => ⟨doc.registries, ("", [(k, v)]) :: doc.otherSections⟩)
  | .registryHeader n :: rest =>
      (parseConfig (takeKVs rest).2).map
        (fun doc => ⟨(n, (takeKVs rest).1) :: doc.registries, doc.otherSections⟩)
  | .otherHeader n :: rest =>
      (parseConfig (takeKVs rest).2).map
        (fun doc => ⟨doc.registries, (n, (takeKVs rest).1) :: doc.otherSections⟩)
termination_by ls => ls.length
decreasing_by
  all_goals simp_wf
  all_goals first
    | omega
    | exact Nat.lt_succ_of_le (takeKVs_rest_length _)

/-- Modelled from the spec: the fixed allow-list of registry fields that
survive sanitization — index URL, token and credential-provider. -/
def allowedRegistryFields : List String := ["index", "token", "credential-provider"]

/-- Keep only the allow-listed fields of one registry entry. -/
def sanitizeRegistryEntry (fields : List (String × String)) : List (String × String) :=
  fields.filter (fun f => allowedRegistryFields.contains f.1)

/-- Whether a registry entry carries the mandatory `index` field. -/
def entryHasIndex (fields : List (String × String)) : Bool :=
  fields.any (fun f => f.1 == "index")

/-- Filter a list of registry entries: restrict each entry to the allow-list
and drop every entry that lacks the mandatory `index` field. -/
def sanitizeRegs (regs : List (String × List (String × String))) :
    List (String × List (String × String)) :=
  (regs.map (fun e => (e.1, sanitizeRegistryEntry e.2))).filter
    (fun e => entryHasIndex e.2)

/-- Modelled from the spec: sanitize a parsed document — only registry
sections survive, each restricted to the allow-list, and entries without an
`index` field are dropped entirely; every other top-level section is
dropped. -/
def sanitizeDoc (doc : CargoConfig) : CargoConfig :=
  ⟨sanitizeRegs doc.registries, []⟩

/-- Serialize one surviving registry section back to configuration lines. -/
def serializeSection (e : String × List (String × String)) : List ConfigLine :=
  .registryHeader e.1 :: e.2.map (fun f => .kv f.1 f.2)

/-- Serialize the surviving registry sections, separated by blank lines. -/
def serializeRegistries : List (String × List (String × String)) → List ConfigLine
  | [] => []
  | [e] => serializeSection e
  | e :: rest => serializeSection e ++ ConfigLine.blank :: serializeRegistries rest

/-- Modelled from the spec: the deterministic serialization of a sanitized
document; an empty document serializes to empty text. -/
def serializeConfig (doc : CargoConfig) : List ConfigLine :=
  serializeRegistries doc.registries

/-- Modelled from the spec: `_sanitize_cargo_config` — parse the
configuration text, fail with `UnexpectedFormat` when it does not parse,
otherwise emit the deterministic serialization of the sanitized document
(empty text when nothing survives). -/
def _sanitize_cargo_config (text : List ConfigLine) :
    Except CargoError (List ConfigLine) :=
  match parseConfig text with
  | none => .error .unexpectedFormat
  | some doc => .ok (serializeConfig (sanitizeDoc doc))

theorem takeKVs_map_kv_append (fields : List (String × String)) (ls : List ConfigLine) :
    takeKVs (fields.map (fun f => ConfigLine.kv f.1 f.2) ++ ls) =
      (fields ++ (takeKVs ls).1, (takeKVs ls).2) := by
  induction fields with
  | nil => simp
  | cons f rest ih => simp [takeKVs, ih]

theorem takeKVs_serializeRegistries (regs : List (String × List (String × String)))
    (h : regs ≠ []) :
    takeKVs (serializeRegistries regs) = ([], serializeRegistries regs) := by
  cases regs with
  | nil => exact absurd rfl h
  | cons e rest =>
    cases rest with
    | nil => simp [serializeRegistries, serializeSection, takeKVs]
    | cons r rest => simp [serializeRegistries, serializeSection, takeKVs]

theorem parseConfig_serializeRegistries (regs : List (String × List (String × String))) :
    parseConfig (serializeRegistries regs) = some ⟨regs, []⟩ := by
  induction regs with
  | nil => simp [serializeRegistries, parseConfig]
  | cons e rest ih =>
    cases rest with
    | nil =>
      have hkv : takeKVs (e.2.map (fun f => ConfigLine.kv f.1 f.2)) = (e.2, []) := by
        simpa [takeKVs] using takeKVs_map_kv_append e.2 []
      simp [serializeRegistries, serializeSection, parseConfig, hkv]
    | cons r rest =>
      have hS : takeKVs (serializeRegistries (r :: rest)) =
          ([], serializeRegistries (r :: rest)) :=
        takeKVs_serializeRegistries (r :: rest) (by simp)
      have hkv : takeKVs (e.2.map (fun f => ConfigLine.kv f.1 f.2) ++
          ConfigLine.blank :: serializeRegistries (r :: rest)) =
          (e.2, serializeRegistries (r :: rest)) := by
        simpa [takeKVs, hS] using
          takeKVs_map_kv_append e.2 (ConfigLine.blank :: serializeRegistries (r :: rest))
      simp [serializeRegistries, serializeSection, parseConfig, hkv, ih]

theorem sanitizeRegistryEntry_idem (fs : List (String × String)) :
    sanitizeRegistryEntry (sanitizeRegistryEntry fs) = sanitizeRegistryEntry fs := by
  simp [sanitizeRegistryEntry, List.filter_filter]

theorem entryHasIndex_sanitizeRegistryEntry (fs : List (String × String)) :
    entryHasIndex (sanitizeRegistryEntry fs) = entryHasIndex fs := by
  have hfun : (fun (f : String × String) =>
      allowedRegistryFields.contains f.1 && (f.1 == "index")) =
      (fun f => f.1 == "index") := by
    funext f
    cases hq : (f.1 == "index") with
    | false => simp [hq]
    | true =>
      have hf : f.1 = "index" := by simpa using hq
      simp [hf, allowedRegistryFields]
  simp only [entryHasIndex, sanitizeRegistryEntry, List.any_filter]
  rw [hfun]

theorem sanitizeRegs_idem (regs : List (String × List (String × String))) :
    sanitizeRegs (sanitizeRegs regs) = sanitizeRegs regs := by
  induction regs with
  | nil => simp [sanitizeRegs]
  | cons e rest ih =>
    cases hi : entryHasIndex (sanitizeRegistryEntry e.2) with
    | false => simpa [sanitizeRegs, hi] using ih
    | true =>
      have h2 : entryHasIndex (sanitizeRegistryEntry (sanitizeRegistryEntry e.2)) = true := by
        rw [entryHasIndex_sanitizeRegistryEntry]
        exact hi
      simp only [sanitizeRegs, List.map_cons, List.filter_cons, hi, h2,
        sanitizeRegistryEntry_idem, if_true] at ih ⊢
      simpa [sanitizeRegs] using ih

theorem sanitizeRegs_eq_nil_of_no_index (regs : List (String × List (String × String)))
    (h : ∀ n fs, (n, fs) ∈ regs → entryHasIndex fs = false) :
    sanitizeRegs regs = [] := by
  induction regs with
  | nil => simp [sanitizeRegs]
  | cons e rest ih =>
    have he : entryHasIndex (sanitizeRegistryEntry e.2) = false := by
      rw [entryHasIndex_sanitizeRegistryEntry]
      exact h e.1 e.2 (by simp)
    have hrest : sanitizeRegs rest = [] :=
      ih (fun n fs hm => h n fs (List.mem_cons_of_mem _ hm))
    simpa [sanitizeRegs, he] using hrest

/-! ## Cargo locked packages and PURL emission -/

/-- Modelled from the spec: the source descriptor of a locked cargo package,
already split into its classified shape — `registry+<url>`, or
`git+<url>?rev=<rev>#<resolved-commit>` with the scheme token, the bare URL,
the optional requested rev and the resolved commit after the `#`. -/
inductive CargoSource where
  | registry (url : String)
  | git (scheme : String) (url : String) (rev : Option String) (commit : String)
deriving DecidableEq, Repr

/-- Modelled from the spec: one locked package of the Cargo.lock — name,
version, optional source descriptor and optional checksum. -/
structure CargoPackage where
  name : String
  version : String
  source : Option CargoSource := none
  checksum : Option String := none
deriving DecidableEq, Repr

/-- Uppercase hexadecimal digit for `n < 16`. -/
def hexDigitChar (n : Nat) : Char :=
  if n < 10 then Char.ofNat (48 + n) else Char.ofNat (55 + n)

/-- Modelled from the spec: characters a PURL qualifier value keeps verbatim
(the serializer quotes with `:` and `/` marked safe). -/
def isPurlSafeChar (c : Char) : Bool :=
  c.isAlphanum || c == '_' || c == '.' || c == '-' || c == '~' || c == ':' || c == '/'

/-- Percent-encode one character: safe characters stay, everything else
becomes `%HH` with uppercase hexadecimal digits. -/
def percentEncodeChar (c : Char) : String :=
  if isPurlSafeChar c then String.singleton c
  else "%" ++ String.singleton (hexDigitChar (c.toNat / 16 % 16)) ++
    String.singleton (hexDigitChar (c.toNat % 16))

/-- Modelled from the spec: percent-encoding of a PURL qualifier value. -/
def percentEncode (s : String) : String :=
  String.join (s.toList.map percentEncodeChar)

/-- Modelled from the spec: the well-known default registry detection — a
case of substring matching on the URL for the default-registry token, which
deliberately also matches mirror hosts that merely contain the token. -/
def hasTokenAux (pat : List Char) : List Char → Bool
  | [] => pat.isEmpty
  | c :: rest => List.isPrefixOf pat (c :: rest) || hasTokenAux pat rest

/-- Whether the registry URL matches the default-registry pattern
(contains the token of the crates-io index host). -/
def isDefaultRegistryUrl (url : String) : Bool :=
  hasTokenAux "crates.io".toList url.toList

/-- Serialize a qualifier list: empty for no qualifiers, otherwise
`?k=v&…` with each value percent-encoded, in the listed (stable) order. -/
def serializeQualifiers (quals : List (String × String)) : String :=
  match quals with
  | [] => ""
  | _ => "?" ++ String.intercalate "&" (quals.map (fun q => q.1 ++ "=" ++ percentEncode q.2))

/-- Modelled from the spec: the qualifiers of a locked package's PURL.
A registry source contributes a `checksum` qualifier when a checksum is
present and a `repository_url` qualifier unless the URL matches the
default-registry pattern; a git source contributes a `vcs_url` qualifier
built as `<scheme>+<url>@<resolved-commit>`. -/
def CargoPackage.qualifiers (p : CargoPackage) : List (String × String) :=
  match p.source with
  | none => []
  | some (.registry url) =>
      (match p.checksum with
       | some c => [("checksum", c)]
       | none => []) ++
      (if isDefaultRegistryUrl url then [] else [("repository_url", url)])
  | some (.git scheme url _ commit) =>
      [("vcs_url", scheme ++ "+" ++ url ++ "@" ++ commit)]

/-- Modelled from the spec: the canonical PURL string of a locked package —
`pkg:cargo/<name>@<version>` followed by the serialized qualifiers. -/
def CargoPackage.purl (p : CargoPackage) : String :=
  "pkg:cargo/" ++ p.name ++ "@" ++ p.version ++ serializeQualifiers p.qualifiers

/-! ## Cargo project identity resolution -/

/-- Modelled from the spec: the parsed shape of a Cargo.toml manifest as far
as identity resolution reads it — the optional `[package]` name and version,
whether a `[workspace]` section is declared, and the optional
`[workspace.package]` version.  `none` for the whole manifest stands for
input that fails to parse as the structured format. -/
structure CargoManifest where
  packageName : Option String
  packageVersion : Option String
  hasWorkspace : Bool
  workspacePackageVersion : Option String
deriving DecidableEq, Repr

/-- Modelled from the spec: `_resolve_main_package` — a named `[package]`
wins (inheriting the workspace-level version when it has no explicit one), a
manifest that declares only a workspace takes the containing directory's
base name with the workspace-level version if any, and anything else fails
with `UnexpectedFormat`. -/
def _resolve_main_package (dirName : String) (manifest : Option CargoManifest) :
    Except CargoError (String × Option String) :=
  match manifest with
  | none => .error .unexpectedFormat
  | some m =>
      match m.packageName with
      | some n => .ok (n, m.packageVersion.orElse (fun _ => m.workspacePackageVersion))
      | none =>
          if m.hasWorkspace then .ok (dirName, m.workspacePackageVersion)
          else .error .unexpectedFormat

/-! ## Cargo SBOM component generation -/

/-- Strict or permissive resolution mode (`hermeto.core.constants.Mode`). -/
inductive Mode where
  | strict
  | permissive
deriving DecidableEq, Repr

/-- Modelled from the spec: the outcome of resolving the checkout's VCS
origin (`get_repo_id`) — a repository with its `vcs_url` qualifier value, the
`NotAGitRepo` outcome, or any other failure, which always propagates. -/
inductive RepoLookup where
  | repo (vcsUrl : String)
  | notAGitRepo
  | failure (msg : String)
deriving DecidableEq, Repr

/-- One emitted SBOM component: its PURL string and the qualifier list the
PURL was built from. -/
structure Component where
  purl : String
  purlQualifiers : List (String × String)
deriving DecidableEq, Repr

/-- Build a component from a name, version and qualifier list. -/
def mkComponent (nm ver : String) (quals : List (String × String)) : Component :=
  ⟨"pkg:cargo/" ++ nm ++ "@" ++ ver ++ serializeQualifiers quals, quals⟩

/-- Modelled from the spec: the mode policy of §4.4 — a found repository
yields its `vcs_url` qualifier value; `NotAGitRepo` is swallowed in
permissive mode, and in strict mode exactly when the package's source
directory is nested inside the run's output directory; any other failure
propagates regardless of mode. -/
def resolveMainVcsUrl (mode : Mode) (sourceInOutput : Bool) (repo : RepoLookup) :
    Except CargoError (Option String) :=
  match repo with
  | .repo u => .ok (some u)
  | .notAGitRepo =>
      match mode with
      | .permissive => .ok none
      | .strict => if sourceInOutput then .ok none else .error .notAGitRepo
  | .failure m => .error (.other m)

/-- Modelled from the spec: `_generate_sbom_components` — resolve the main
package's VCS origin under the mode policy (source and output directories
embedded as path segment lists, nesting as segment-list prefix), then emit
the main package's component (with a `vcs_url` qualifier exactly when an
origin was resolved) followed by one component per locked dependency. -/
def _generate_sbom_components (mode : Mode) (sourceDir outputDir : List String)
    (repo : RepoLookup) (mainPkg : CargoPackage) (deps : List CargoPackage) :
    Except CargoError (List Component) :=
  match resolveMainVcsUrl mode (List.isPrefixOf outputDir sourceDir) repo with
  | .error e => .error e
  | .ok vcsUrl =>
      .ok (mkComponent mainPkg.name mainPkg.version
             (match vcsUrl with
              | some u => [("vcs_url", u)]
              | none => []) ::
           deps.map (fun p => ⟨p.purl, p.qualifiers⟩))

/-! ## Claim theorems -/

/-- C2: every artifact instance of the three origin variants is exactly one
variant — its variant test holds and the other two fail — and the derived
`kind` accessor returns the matching discriminant (`"pypi"`, `"vcs"` or
`"url"`).  The `Artifact` type stores no tag field, so `kind` is computed
solely from which constructor the instance is. -/
theorem artifact_kind_consistency (a : Artifact) (h : a.isDownload = true) :
    (a.isPyPI = true ∧ a.isVCS = false ∧ a.isURL = false ∧ a.kind = .ok "pypi") ∨
    (a.isVCS = true ∧ a.isPyPI = false ∧ a.isURL = false ∧ a.kind = .ok "vcs") ∨
    (a.isURL = true ∧ a.isPyPI = false ∧ a.isVCS = false ∧ a.kind = .ok "url") := by
  cases a <;> simp_all [Artifact.isDownload, Artifact.isPyPI, Artifact.isVCS,
    Artifact.isURL, Artifact.kind]

/-- Witness for C2 at a concrete `PyPIArtifact` instance. -/
theorem artifact_kind_consistency_witness :
    (Artifact.pypi ⟨⟨"numpy", "/tmp/numpy-1.21.0.tar.gz", "requirements.txt", false, false⟩,
        "https://pypi.org/simple/", .sdist, "1.21.0"⟩).isDownload = true ∧
    (((Artifact.pypi ⟨⟨"numpy", "/tmp/numpy-1.21.0.tar.gz", "requirements.txt", false, false⟩,
        "https://pypi.org/simple/", .sdist, "1.21.0"⟩).isPyPI = true ∧
      (Artifact.pypi ⟨⟨"numpy", "/tmp/numpy-1.21.0.tar.gz", "requirements.txt", false, false⟩,
        "https://pypi.org/simple/", .sdist, "1.21.0"⟩).isVCS = false ∧
      (Artifact.pypi ⟨⟨"numpy", "/tmp/numpy-1.21.0.tar.gz", "requirements.txt", false, false⟩,
        "https://pypi.org/simple/", .sdist, "1.21.0"⟩).isURL = false ∧
      (Artifact.pypi ⟨⟨"numpy", "/tmp/numpy-1.21.0.tar.gz", "requirements.txt", false, false⟩,
        "https://pypi.org/simple/", .sdist, "1.21.0"⟩).kind = .ok "pypi") ∨
     ((Artifact.pypi ⟨⟨"numpy", "/tmp/numpy-1.21.0.tar.gz", "requirements.txt", false, false⟩,
        "https://pypi.org/simple/", .sdist, "1.21.0"⟩).isVCS = true ∧
      (Artifact.pypi ⟨⟨"numpy", "/tmp/numpy-1.21.0.tar.gz", "requirements.txt", false, false⟩,
        "https://pypi.org/simple/", .sdist, "1.21.0"⟩).isPyPI = false ∧
      (Artifact.pypi ⟨⟨"numpy", "/tmp/numpy-1.21.0.tar.gz", "requirements.txt", false, false⟩,
        "https://pypi.org/simple/", .sdist, "1.21.0"⟩).isURL = false ∧
      (Artifact.pypi ⟨⟨"numpy", "/tmp/numpy-1.21.0.tar.gz", "requirements.txt", false, false⟩,
        "https://pypi.org/simple/", .sdist, "1.21.0"⟩).kind = .ok "vcs") ∨
     ((Artifact.pypi ⟨⟨"numpy", "/tmp/numpy-1.21.0.tar.gz", "requirements.txt", false, false⟩,
        "https://pypi.org/simple/", .sdist, "1.21.0"⟩).isURL = true ∧
      (Artifact.pypi ⟨⟨"numpy", "/tmp/numpy-1.21.0.tar.gz", "requirements.txt", false, false⟩,
        "https://pypi.org/simple/", .sdist, "1.21.0"⟩).isPyPI = false ∧
      (Artifact.pypi ⟨⟨"numpy", "/tmp/numpy-1.21.0.tar.gz", "requirements.txt", false, false⟩,
        "https://pypi.org/simple/", .sdist, "1.21.0"⟩).isVCS = false ∧
      (Artifact.pypi ⟨⟨"numpy", "/tmp/numpy-1.21.0.tar.gz", "requirements.txt", false, false⟩,
        "https://pypi.org/simple/", .sdist, "1.21.0"⟩).kind = .ok "url")) :=
  ⟨rfl, artifact_kind_consistency _ rfl⟩

/-- C10: the base record is constructible from the five common fields alone,
and the `kind` accessor fails (the embedded `raise ValueError`) exactly on
such non-variant instances. -/
theorem artifact_kind_error_iff_common (a : Artifact) :
    (∃ msg, a.kind = .error msg) ↔ (∃ c, a = .common c) := by
  cases a <;> simp [Artifact.kind]

/-- C8 counterexample: a concrete `VCSArtifact` whose derived version string
is `git+<url>@<ref>`, which differs from the `vcs+<url>@<ref>` shape the
claim states. -/
theorem vcs_artifact_version_cex :
    VCSArtifact.version ⟨⟨"myproject", "/tmp/x.tar.gz", "requirements.txt", true, false⟩,
      "https://github.com/user/myproject.git", "github.com", "user", "myproject", "abc123"⟩
      = "git+https://github.com/user/myproject.git@abc123" ∧
    "git+https://github.com/user/myproject.git@abc123" ≠
      "vcs+https://github.com/user/myproject.git@abc123" :=
  ⟨rfl, by decide⟩

/-- C8 (amended): for every VCS artifact the derived version string is the
scheme token `git`, a `+`, the repository URL, an `@`, and the resolved
reference: `git+<url>@<ref>`. -/
theorem vcs_artifact_version_shape (a : VCSArtifact) :
    a.version = "git+" ++ a.url ++ "@" ++ a.ref := rfl

theorem serializeQualifiers_singleton (k v : String) :
    serializeQualifiers [(k, v)] = "?" ++ k ++ "=" ++ percentEncode v := by
  simp [serializeQualifiers, String.intercalate, String.intercalate.go, String.append_assoc]

/-- C5: for a locked package with a `registry+<url>` source, a URL matching
the default-registry pattern (the deliberately permissive substring match,
mirror subdomains included) yields no `repository_url` qualifier and a
`checksum` qualifier exactly when a checksum is present; any other URL
yields a `repository_url` qualifier carrying the URL (with the `checksum`
qualifier still tracking checksum presence). -/
theorem registry_purl_qualifiers (n v url : String) (chk : Option String) :
    (isDefaultRegistryUrl url = true →
      (∀ w, ("repository_url", w) ∉
          CargoPackage.qualifiers ⟨n, v, some (.registry url), chk⟩) ∧
      CargoPackage.qualifiers ⟨n, v, some (.registry url), chk⟩ =
        (match chk with
         | some c => [("checksum", c)]
         | none => [])) ∧
    (isDefaultRegistryUrl url = false →
      ("repository_url", url) ∈ CargoPackage.qualifiers ⟨n, v, some (.registry url), chk⟩ ∧
      (∀ c, ("checksum", c) ∈ CargoPackage.qualifiers ⟨n, v, some (.registry url), chk⟩ ↔
        chk = some c)) := by
  cases hd : isDefaultRegistryUrl url <;>
    cases chk <;>
      simp [CargoPackage.qualifiers, hd, eq_comm]

/-- Witness for C5: the default-registry case at the crates-io index URL
with a checksum, and the alternate-registry case at an example URL with no
checksum. -/
theorem registry_purl_qualifiers_witness :
    ((∀ w, ("repository_url", w) ∉ CargoPackage.qualifiers
        ⟨"foo", "0.1.0", some (.registry "https://github.com/rust-lang/crates.io-index"),
          some "abc123"⟩) ∧
      CargoPackage.qualifiers
        ⟨"foo", "0.1.0", some (.registry "https://github.com/rust-lang/crates.io-index"),
          some "abc123"⟩ = [("checksum", "abc123")]) ∧
    (("repository_url", "https://my-registry.example.com/index") ∈
        CargoPackage.qualifiers
          ⟨"foo", "0.1.0", some (.registry "https://my-registry.example.com/index"), none⟩ ∧
      (∀ c, ("checksum", c) ∈ CargoPackage.qualifiers
          ⟨"foo", "0.1.0", some (.registry "https://my-registry.example.com/index"), none⟩ ↔
        (none : Option String) = some c)) :=
  ⟨(registry_purl_qualifiers "foo" "0.1.0"
      "https://github.com/rust-lang/crates.io-index" (some "abc123")).1 (by decide),
   (registry_purl_qualifiers "foo" "0.1.0"
      "https://my-registry.example.com/index" none).2 (by decide)⟩

/-- C6: for a locked package with a `git+<url>?rev=<rev>#<resolved-commit>`
source, the `vcs_url` qualifier is built as `<scheme>+<url>@<commit>` from
the resolved commit — the stated equality holds for every requested `rev`,
so the qualifier never depends on it — and the emitted PURL carries that
value percent-encoded. -/
theorem git_purl_resolved_commit (n v scheme url commit : String) (rev : Option String)
    (chk : Option String) :
    CargoPackage.qualifiers ⟨n, v, some (.git scheme url rev commit), chk⟩ =
      [("vcs_url", scheme ++ "+" ++ url ++ "@" ++ commit)] ∧
    CargoPackage.purl ⟨n, v, some (.git scheme url rev commit), chk⟩ =
      "pkg:cargo/" ++ n ++ "@" ++ v ++ "?vcs_url=" ++
        percentEncode (scheme ++ "+" ++ url ++ "@" ++ commit) := by
  refine ⟨rfl, ?_⟩
  simp [CargoPackage.purl, CargoPackage.qualifiers, serializeQualifiers_singleton,
    String.append_assoc]

/-- C1: when VCS origin resolution reports `NotAGitRepo`, strict mode with
the source directory not nested inside the output directory propagates the
error from `_generate_sbom_components`; permissive mode, and strict mode
with the source nested inside the output directory, both succeed and emit a
main component whose PURL carries no `vcs_url` qualifier. -/
theorem generate_sbom_notAGitRepo_policy (mode : Mode) (sourceDir outputDir : List String)
    (mainPkg : CargoPackage) (deps : List CargoPackage) :
    (mode = .strict → List.isPrefixOf outputDir sourceDir = false →
      _generate_sbom_components mode sourceDir outputDir .notAGitRepo mainPkg deps =
        .error .notAGitRepo) ∧
    (mode = .permissive →
      ∃ c rest, _generate_sbom_components mode sourceDir outputDir .notAGitRepo mainPkg deps =
        .ok (c :: rest) ∧ ∀ w, ("vcs_url", w) ∉ c.purlQualifiers) ∧
    (mode = .strict → List.isPrefixOf outputDir sourceDir = true →
      ∃ c rest, _generate_sbom_components mode sourceDir outputDir .notAGitRepo mainPkg deps =
        .ok (c :: rest) ∧ ∀ w, ("vcs_url", w) ∉ c.purlQualifiers) := by
  refine ⟨fun hm hp => ?_, fun hm => ?_, fun hm hp => ?_⟩
  · subst hm
    simp [_generate_sbom_components, resolveMainVcsUrl, mkComponent, hp]
  · subst hm
    simp [_generate_sbom_components, resolveMainVcsUrl, mkComponent]
  · subst hm
    simp [_generate_sbom_components, resolveMainVcsUrl, mkComponent, hp]

/-- Witness for C1: all three branches at concrete directories — strict mode
with `["out"]` not a prefix of `["src"]` errors, permissive mode succeeds,
and strict mode with the source `["out", "src"]` nested under `["out"]`
succeeds, with no `vcs_url` qualifier in either success. -/
theorem generate_sbom_notAGitRepo_policy_witness :
    _generate_sbom_components .strict ["src"] ["out"] .notAGitRepo
        ⟨"my-crate", "0.1.0", none, none⟩ [] = .error .notAGitRepo ∧
    (∃ c rest, _generate_sbom_components .permissive ["src"] ["out"] .notAGitRepo
        ⟨"my-crate", "0.1.0", none, none⟩ [] = .ok (c :: rest) ∧
      ∀ w, ("vcs_url", w) ∉ c.purlQualifiers) ∧
    (∃ c rest, _generate_sbom_components .strict ["out", "src"] ["out"] .notAGitRepo
        ⟨"my-crate", "0.1.0", none, none⟩ [] = .ok (c :: rest) ∧
      ∀ w, ("vcs_url", w) ∉ c.purlQualifiers) :=
  ⟨(generate_sbom_notAGitRepo_policy .strict ["src"] ["out"]
      ⟨"my-crate", "0.1.0", none, none⟩ []).1 rfl (by decide),
   (generate_sbom_notAGitRepo_policy .permissive ["src"] ["out"]
      ⟨"my-crate", "0.1.0", none, none⟩ []).2.1 rfl,
   (generate_sbom_notAGitRepo_policy .strict ["out", "src"] ["out"]
      ⟨"my-crate", "0.1.0", none, none⟩ []).2.2 rfl (by decide)⟩

/-- C7 counterexample: a manifest that declares a workspace with no
`[package]` section but a `[workspace.package]` version resolves to the
directory's base name with that version — not an absent version as the
claim states (matching the repository's own
`test_virtual_workspace_with_workspace_package_version`). -/
theorem resolve_main_package_workspace_cex :
    _resolve_main_package "mydir" (some ⟨none, none, true, some "1.2.3"⟩) =
      .ok ("mydir", some "1.2.3") ∧ (some "1.2.3" : Option String) ≠ none :=
  ⟨rfl, by decide⟩

/-- C7 (amended): a manifest that declares a workspace with no `[package]`
section resolves to the containing directory's base name as the project
name, with the workspace-level package version when one is declared and an
absent version otherwise (never an empty string or placeholder). -/
theorem resolve_main_package_workspace_identity (dirName : String) (m : CargoManifest)
    (hw : m.hasWorkspace = true) (hp : m.packageName = none) :
    _resolve_main_package dirName (some m) = .ok (dirName, m.workspacePackageVersion) := by
  simp [_resolve_main_package, hp, hw]

/-- Witness for C7 (amended) at a workspace-only manifest with no
workspace-level version: the resolved version is absent. -/
theorem resolve_main_package_workspace_identity_witness :
    _resolve_main_package "my-workspace" (some ⟨none, none, true, none⟩) =
      .ok ("my-workspace", none) :=
  resolve_main_package_workspace_identity "my-workspace" ⟨none, none, true, none⟩ rfl rfl

/-- C3: on any input that parses, `_sanitize_cargo_config` succeeds (dropping
is never an error) and its output reparses to a document with no non-registry
section, in which every surviving registry entry carries the mandatory
`index` field, holds only allow-listed fields, and is exactly the allow-list
filtering of an input entry of the same name — and every input entry with an
`index` field survives as its filtered form. -/
theorem sanitize_cargo_config_allowlist (text : List ConfigLine) (doc : CargoConfig)
    (hp : parseConfig text = some doc) :
    ∃ out doc', _sanitize_cargo_config text = .ok out ∧
      parseConfig out = some doc' ∧
      doc'.otherSections = [] ∧
      (∀ n fs, (n, fs) ∈ doc'.registries →
        entryHasIndex fs = true ∧
        (∀ f, f ∈ fs → allowedRegistryFields.contains f.1 = true) ∧
        ∃ fs₀, (n, fs₀) ∈ doc.registries ∧ fs = sanitizeRegistryEntry fs₀) ∧
      (∀ n fs₀, (n, fs₀) ∈ doc.registries → entryHasIndex fs₀ = true →
        (n, sanitizeRegistryEntry fs₀) ∈ doc'.registries) := by
  refine ⟨serializeRegistries (sanitizeRegs doc.registries),
    ⟨sanitizeRegs doc.registries, []⟩, ?_, parseConfig_serializeRegistries _, rfl, ?_, ?_⟩
  · simp [_sanitize_cargo_config, hp, serializeConfig, sanitizeDoc]
  · intro n fs hm
    simp only [sanitizeRegs] at hm
    obtain ⟨hmap, hpred⟩ := List.mem_filter.mp hm
    obtain ⟨e, he, heq⟩ := List.mem_map.mp hmap
    obtain ⟨h1, h2⟩ := Prod.mk.injEq .. ▸ heq
    refine ⟨by simpa using hpred, ?_, e.2, ?_, h2.symm⟩
    · intro f hf
      rw [← h2] at hf
      exact (List.mem_filter.mp hf).2
    · rw [← h1]
      simpa using he
  · intro n fs₀ hm hidx
    simp only [sanitizeRegs]
    refine List.mem_filter.mpr ⟨List.mem_map.mpr ⟨(n, fs₀), hm, rfl⟩, ?_⟩
    simpa [entryHasIndex_sanitizeRegistryEntry] using hidx

/-- Witness for C3 at the repository's own fixture: one registry section
with `index`, `token`, `credential-provider` and one disallowed field. -/
theorem sanitize_cargo_config_allowlist_witness :
    ∃ out doc', _sanitize_cargo_config [ConfigLine.registryHeader "my-registry",
        ConfigLine.kv "index" "https://my-intranet:8080/git/index",
        ConfigLine.kv "token" "secret-token",
        ConfigLine.kv "credential-provider" "cargo:token",
        ConfigLine.kv "dangerous-field" "should-be-removed"] = .ok out ∧
      parseConfig out = some doc' ∧
      doc'.otherSections = [] ∧
      (∀ n fs, (n, fs) ∈ doc'.registries →
        entryHasIndex fs = true ∧
        (∀ f, f ∈ fs → allowedRegistryFields.contains f.1 = true) ∧
        ∃ fs₀, (n, fs₀) ∈ (⟨[("my-registry",
            [("index", "https://my-intranet:8080/git/index"),
             ("token", "secret-token"),
             ("credential-provider", "cargo:token"),
             ("dangerous-field", "should-be-removed")])], []⟩ : CargoConfig).registries ∧
          fs = sanitizeRegistryEntry fs₀) ∧
      (∀ n fs₀, (n, fs₀) ∈ (⟨[("my-registry",
            [("index", "https://my-intranet:8080/git/index"),
             ("token", "secret-token"),
             ("credential-provider", "cargo:token"),
             ("dangerous-field", "should-be-removed")])], []⟩ : CargoConfig).registries →
        entryHasIndex fs₀ = true →
        (n, sanitizeRegistryEntry fs₀) ∈ doc'.registries) :=
  sanitize_cargo_config_allowlist _ _ (by simp [parseConfig, takeKVs])

/-- C4: `_sanitize_cargo_config` returns empty output, and never an error,
for every input that parses but whose registry entries all lack an `index`
field (non-registry sections and the empty input included); it fails, and
fails with `UnexpectedFormat`, exactly when the input does not parse. -/
theorem sanitize_cargo_config_empty_or_error (text : List ConfigLine) :
    (∀ doc, parseConfig text = some doc →
      (∀ n fs, (n, fs) ∈ doc.registries → entryHasIndex fs = false) →
      _sanitize_cargo_config text = .ok []) ∧
    ((∃ e, _sanitize_cargo_config text = .error e) ↔ parseConfig text = none) ∧
    (∀ e, _sanitize_cargo_config text = .error e → e = CargoError.unexpectedFormat) := by
  refine ⟨fun doc hp hno => ?_, ?_, ?_⟩
  · simp [_sanitize_cargo_config, hp, serializeConfig, sanitizeDoc,
      sanitizeRegs_eq_nil_of_no_index doc.registries hno, serializeRegistries]
  · cases hp : parseConfig text with
    | none => simp [_sanitize_cargo_config, hp]
    | some doc => simp [_sanitize_cargo_config, hp]
  · intro e he
    cases hp : parseConfig text with
    | none =>
      simp only [_sanitize_cargo_config, hp, Except.error.injEq] at he
      exact he.symm
    | some doc => simp [_sanitize_cargo_config, hp] at he

/-- Witness for C4: input with only a non-registry section sanitizes to
empty output. -/
theorem sanitize_cargo_config_empty_or_error_witness :
    _sanitize_cargo_config [ConfigLine.otherHeader "build", ConfigLine.kv "jobs" "4"] =
      .ok [] :=
  (sanitize_cargo_config_empty_or_error _).1 ⟨[], [("build", [("jobs", "4")])]⟩
    (by simp [parseConfig, takeKVs]) (by intro n fs h; simp at h)

/-- C9: `_sanitize_cargo_config` is idempotent — whenever it succeeds, its
output is a fixed point: sanitizing the output again succeeds and returns
the same output. -/
theorem sanitize_cargo_config_idempotent (text out : List ConfigLine)
    (h : _sanitize_cargo_config text = .ok out) :
    _sanitize_cargo_config out = .ok out := by
  cases hp : parseConfig text with
  | none => simp [_sanitize_cargo_config, hp] at h
  | some doc =>
    simp only [_sanitize_cargo_config, hp, Except.ok.injEq] at h
    subst h
    have hps : parseConfig (serializeRegistries (sanitizeRegs doc.registries)) =
        some ⟨sanitizeRegs doc.registries, []⟩ :=
      parseConfig_serializeRegistries (sanitizeRegs doc.registries)
    simp [_sanitize_cargo_config, hps, serializeConfig, sanitizeDoc, sanitizeRegs_idem]

/-- Witness for C9: sanitizing a registry section with one disallowed field
succeeds, and sanitizing the sanitized output returns it unchanged. -/
theorem sanitize_cargo_config_idempotent_witness :
    _sanitize_cargo_config [ConfigLine.registryHeader "r",
        ConfigLine.kv "index" "https://example.com/index",
        ConfigLine.kv "dangerous" "x"] =
      .ok [ConfigLine.registryHeader "r",
        ConfigLine.kv "index" "https://example.com/index"] ∧
    _sanitize_cargo_config [ConfigLine.registryHeader "r",
        ConfigLine.kv "index" "https://example.com/index"] =
      .ok [ConfigLine.registryHeader "r",
        ConfigLine.kv "index" "https://example.com/index"] := by
  have h : _sanitize_cargo_config [ConfigLine.registryHeader "r",
      ConfigLine.kv "index" "https://example.com/index",
      ConfigLine.kv "dangerous" "x"] =
      .ok [ConfigLine.registryHeader "r",
        ConfigLine.kv "index" "https://example.com/index"] := by
    simp [_sanitize_cargo_config, parseConfig, takeKVs, serializeConfig, sanitizeDoc,
      sanitizeRegs, sanitizeRegistryEntry, entryHasIndex, allowedRegistryFields,
      serializeRegistries, serializeSection]
  exact ⟨h, sanitize_cargo_config_idempotent _ _ h⟩

end Hermeto
